import Mathlib

/-!
Shallow embedding of the ai-chatbot-api provider layer (`app/services/ai_service.py`,
`app/services/gemini_service.py`, `app/services/ai_factory.py`), the request layer
(`app/api/v1.py`, `app/api/auth.py`) and the message model (`app/api/models.py`),
together with theorems checking the design document against this embedding.

The upstream LangChain transport is external to the repository; it enters the
embedding as an explicit parameter (a constructor outcome, an invoke outcome, a
list of streamed chunks).  Python exceptions are embedded as `Except` values,
and Python's string operations (`in`, `str.lower`, `str.split`, `str.strip`)
are embedded character-wise so that all definitions reduce in the kernel.
-/

/-- Python's substring test `pat in hay` on lists of characters: some suffix of
the haystack starts with the pattern. -/
def charsContains (pat : List Char) : List Char → Bool
  | [] => pat.isEmpty
  | c :: cs => pat.isPrefixOf (c :: cs) || charsContains pat cs

/-- Python's `pat in hay` for strings (contiguous-substring containment). -/
def strContains (hay pat : String) : Bool :=
  charsContains pat.data hay.data

/-- Python's `str.lower()`, character by character. -/
def strToLower (s : String) : String :=
  String.mk (s.data.map Char.toLower)

/-- Python's `str.split(sep)` on character lists: keeps empty parts, and the
split of the empty string is one empty part. -/
def splitChars (sep : Char) : List Char → List (List Char)
  | [] => [[]]
  | c :: cs =>
    if c = sep then [] :: splitChars sep cs
    else
      match splitChars sep cs with
      | [] => [[c]]
      | p :: ps => (c :: p) :: ps

/-- Whitespace characters removed by Python's `str.strip()`. -/
def isWsChar (c : Char) : Bool :=
  c = ' ' || c = '\t' || c = '\n' || c = '\r' || c = '\x0b' || c = '\x0c'

/-- Drop leading whitespace from a character list. -/
def dropLeadingWs : List Char → List Char
  | [] => []
  | c :: cs => if isWsChar c then dropLeadingWs cs else c :: cs

/-- Python's `str.strip()`: remove whitespace from both ends. -/
def strTrim (s : String) : String :=
  String.mk (dropLeadingWs (dropLeadingWs s.data.reverse).reverse)

/-- Python's `str.split(sep)` for a one-character separator. -/
def strSplitOn (s : String) (sep : Char) : List String :=
  (splitChars sep s.data).map String.mk

/-- Concatenation, in order, of a list of string fragments. -/
def concatStrings (l : List String) : String :=
  l.foldr (fun a b => a ++ b) ""

/-!
Error taxonomy of `app/services/ai_service.py`: the base class `AIServiceError`
and its three subclasses.  A raised error is embedded as a constructor applied
to the exception's message; `generic` stands for an `AIServiceError` that is
none of the three subclasses.
-/

/-- Exception raised by the service layer (`AIServiceError` and subclasses),
carrying its message string. -/
inductive AIServiceFailure where
  | rateLimit (msg : String)
  | configuration (msg : String)
  | provider (msg : String)
  | generic (msg : String)
deriving DecidableEq, Repr

/-- Error category of the taxonomy, without the message payload. -/
inductive ErrorCategory where
  | rateLimit
  | configuration
  | provider
  | generic
deriving DecidableEq, Repr

/-- Category of a raised service failure. -/
def AIServiceFailure.category : AIServiceFailure → ErrorCategory
  | .rateLimit _ => .rateLimit
  | .configuration _ => .configuration
  | .provider _ => .provider
  | .generic _ => .generic

/-!
Message model of `app/api/models.py` and the LangChain message types the
adapter in `gemini_service.py` targets.  `Message.role` is declared there as
`Literal["system", "user", "assistant"]`; the adapter itself receives the role
as a plain string and handles unknown roles with a lenient fallback.
-/

/-- The set of roles admitted by the `Message` schema in `app/api/models.py`. -/
def messageRoles : List String := ["system", "user", "assistant"]

/-- An API chat message `{role, content}`. -/
structure ApiMessage where
  role : String
  content : String
deriving DecidableEq, Repr

/-- A LangChain message: `SystemMessage`, `HumanMessage` or `AIMessage`. -/
inductive LCMessage where
  | system (content : String)
  | human (content : String)
  | ai (content : String)
deriving DecidableEq, Repr

/-- One step of `GeminiService._convert_messages` (gemini_service.py lines
69-79): the three known roles map 1:1, any other role falls back to a
`HumanMessage`. -/
def convertMessage (m : ApiMessage) : LCMessage :=
  if m.role = "system" then .system m.content
  else if m.role = "user" then .human m.content
  else if m.role = "assistant" then .ai m.content
  else .human m.content

/-- The list produced by `GeminiService._convert_messages`. -/
def convertMessages (msgs : List ApiMessage) : List LCMessage :=
  msgs.map convertMessage

/-- The warnings logged by `GeminiService._convert_messages`: one
`"Unknown message role: {role}"` entry per message whose role is not among
the three known ones. -/
def convertWarnings (msgs : List ApiMessage) : List String :=
  (msgs.filter fun m =>
    !(m.role == "system" || m.role == "user" || m.role == "assistant")).map
    fun m => "Unknown message role: " ++ m.role

/-!
The Gemini provider (`app/services/gemini_service.py`).  The external
`ChatGoogleGenerativeAI` transport is embedded as an opaque record; the
outcome of its constructor, of `ainvoke` and of `astream` are parameters of
the corresponding service operations.
-/

/-- The external `ChatGoogleGenerativeAI` transport client (constructor
arguments that the claims need). -/
structure GeminiClient where
  model : String
  googleApiKey : String
deriving DecidableEq, Repr

/-- A complete response from `client.ainvoke` (its `.content` field). -/
structure AIResponse where
  content : String
deriving DecidableEq, Repr

/-- One chunk from `client.astream` (its `.content` field). -/
structure AIChunk where
  content : String
deriving DecidableEq, Repr

/-- State of a `GeminiService` object: `self.model_name` and `self.client`
(`None` until `_initialize_client` assigns it). -/
structure GeminiService where
  modelName : String
  client : Option GeminiClient
deriving DecidableEq, Repr

/-- Embedding of `GeminiService.__init__` / `_initialize_client` (lines
29-55): with the configured `MODEL_API_KEY` and the outcome of the
`ChatGoogleGenerativeAI` constructor, either the service is returned with the
client attached, or an `AIConfigurationError` is raised (the error path wraps
any failure, including the placeholder-key check, in `AIConfigurationError`). -/
def mkGeminiService (modelApiKey : String) (transportCtor : Except String GeminiClient) :
    Except AIServiceFailure GeminiService :=
  if modelApiKey = "" || modelApiKey = "test-model-key" then
    .error (.configuration
      "Failed to initialize Gemini client: Gemini API key not configured. Please set MODEL_API_KEY environment variable.")
  else
    match transportCtor with
    | .error e => .error (.configuration ("Failed to initialize Gemini client: " ++ e))
    | .ok c => .ok { modelName := "gemini-2.0-flash", client := some c }

/-- Error classification shared by the `except` blocks of `chat` (lines
109-124) and `chat_stream` (lines 152-167): keyword tests on the lowercased
exception text, re-raising into the taxonomy. -/
def classifyGeminiError (exc : String) : AIServiceFailure :=
  let m := strToLower exc
  if strContains m "rate limit" || strContains m "quota" then
    .rateLimit ("Gemini rate limit exceeded: " ++ exc)
  else if strContains m "api key" || strContains m "authentication" then
    .configuration ("Gemini authentication error: " ++ exc)
  else if strContains m "permission" || strContains m "forbidden" then
    .configuration ("Gemini permission error: " ++ exc)
  else
    .provider ("Gemini provider error: " ++ exc)

/-- Body of `GeminiService.chat` after the client guard: return the
transport's `.content` on success, classify the exception otherwise. -/
def geminiChatResult (transport : Except String AIResponse) : Except AIServiceFailure String :=
  match transport with
  | .ok r => .ok r.content
  | .error e => .error (classifyGeminiError e)

/-- Embedding of `GeminiService.chat` (lines 83-124): guard on an
uninitialized client, then the transport call. -/
def GeminiService.chat (svc : GeminiService) (transport : Except String AIResponse) :
    Except AIServiceFailure String :=
  match svc.client with
  | none => .error (.configuration "Gemini client not initialized")
  | some _ => geminiChatResult transport

/-- Body of `GeminiService.chat_stream` after the client guard: the transport
produced `chunks` and then possibly an exception; the generator yields each
chunk's content when it is truthy (non-empty), and the exception, if any, is
classified and raised after the yielded prefix. -/
def geminiStreamOutput (chunks : List AIChunk) (failure : Option String) :
    List String × Option AIServiceFailure :=
  ((chunks.map AIChunk.content).filter (fun c => !(c == "")),
    failure.map classifyGeminiError)

/-- Embedding of `GeminiService.chat_stream` (lines 126-167): the pair of the
yielded fragments, in order, and the raised failure if the stream aborts. -/
def GeminiService.chatStream (svc : GeminiService) (chunks : List AIChunk)
    (failure : Option String) : List String × Option AIServiceFailure :=
  match svc.client with
  | none => ([], some (.configuration "Gemini client not initialized"))
  | some _ => geminiStreamOutput chunks failure

/-- Embedding of `GeminiService.validate_configuration` (lines 169-188): the
`except` block re-raises the caught exception unchanged. -/
def GeminiService.validateConfiguration (svc : GeminiService) (modelApiKey : String) :
    Except AIServiceFailure Bool :=
  if modelApiKey = "" || modelApiKey = "test-model-key" then
    .error (.configuration "Gemini API key not configured")
  else
    match svc.client with
    | none => .error (.configuration "Gemini client not initialized")
    | some _ => .ok true

/-- The record returned by `GeminiService.get_model_info` (lines 190-204);
the source dict key `"type"` is the field `type`. -/
structure ModelInfo where
  provider : String
  model : String
  type : String
  capabilities : List String
  maxTokens : Nat
  configured : Bool
deriving DecidableEq, Repr

/-- Embedding of `GeminiService.get_model_info`. -/
def GeminiService.getModelInfo (svc : GeminiService) : ModelInfo :=
  { provider := "google"
    model := svc.modelName
    type := "chat"
    capabilities := ["text", "streaming"]
    maxTokens := 2048
    configured := svc.client.isSome }

/-!
The provider factory (`app/services/ai_factory.py`).  The registry maps a
provider name to a provider specification: the outcome of running its
constructor and, for a constructed instance, the outcome of
`validate_configuration`.  The instance cache is a map from names to
instances.  `create_service` is embedded as a pure function that also reports
how many times the provider's constructor ran during the call, so that
"the constructor runs at most once" is a statement about the embedding.
-/

/-- Behaviour of one registered provider class: what its constructor does and
what `validate_configuration` does on the constructed instance. -/
structure ProviderSpec (I : Type) where
  construct : Except AIServiceFailure I
  validate : I → Except AIServiceFailure Bool

/-- Result of one `AIServiceFactory.create_service` call: the returned value
or raised error, the instance cache after the call, and the number of times
the provider constructor ran during the call. -/
structure FactoryOutcome (I : Type) where
  result : Except AIServiceFailure I
  cache : String → Option I
  ctorRuns : Nat

/-- Embedding of `AIServiceFactory.create_service` (ai_factory.py lines
28-76): lowercase the name, return a cached instance if present, fail for an
unregistered name, otherwise construct, validate, cache and return — wrapping
any exception from construction or validation in `AIConfigurationError`.
(The `provider=None` default resolves to `settings.model_provider`; the name
is passed explicitly here.) -/
def createService {I : Type} (reg : String → Option (ProviderSpec I))
    (cache : String → Option I) (provider : String) : FactoryOutcome I :=
  let p := strToLower provider
  match cache p with
  | some inst => { result := .ok inst, cache := cache, ctorRuns := 0 }
  | none =>
    match reg p with
    | none =>
      { result := .error (.configuration ("Unsupported AI provider: " ++ p))
        cache := cache
        ctorRuns := 0 }
    | some spec =>
      match spec.construct with
      | .error _ =>
        { result := .error (.configuration ("Failed to create " ++ p ++ " service"))
          cache := cache
          ctorRuns := 1 }
      | .ok inst =>
        match spec.validate inst with
        | .error _ =>
          { result := .error (.configuration ("Failed to create " ++ p ++ " service"))
            cache := cache
            ctorRuns := 1 }
        | .ok _ =>
          { result := .ok inst
            cache := fun q => if q = p then some inst else cache q
            ctorRuns := 1 }

/-- Embedding of `AIServiceFactory.clear_cache` (lines 110-114). -/
def clearCache {I : Type} : String → Option I := fun _ => none

/-!
The request layer (`app/api/v1.py`).  The `chat` handler calls the factory
and the service inside one `try`; the outcome of that service-layer work is
abstracted as `ChatOutcome`, and the handler maps it to an HTTP reply.
-/

/-- Outcome of the service-layer work inside the `chat` handler's `try` block:
a successful response string, a raised `AIServiceFailure`, or any other
(unclassified) exception. -/
inductive ChatOutcome where
  | success (content : String)
  | failure (e : AIServiceFailure)
  | unexpected (msg : String)
deriving DecidableEq, Repr

/-- An HTTP reply from the `chat` handler: a `ChatResponse` body with status
200, or an `HTTPException` with a status code and detail string. -/
inductive HttpReply where
  | okChat (status : Nat) (content : String) (model : String)
  | httpError (status : Nat) (detail : String)
deriving DecidableEq, Repr

/-- Status code of an HTTP reply. -/
def HttpReply.status : HttpReply → Nat
  | .okChat s _ _ => s
  | .httpError s _ => s

/-- Embedding of the `POST /api/v1/chat` handler (v1.py lines 54-119): the
`except` clauses, from the most specific subclass to bare `Exception`, map the
outcome to the externally visible reply. -/
def chatEndpoint (modelName : String) (outcome : ChatOutcome) : HttpReply :=
  match outcome with
  | .success content => .okChat 200 content modelName
  | .failure (.rateLimit m) => .httpError 429 ("Rate limit exceeded: " ++ m)
  | .failure (.configuration _) => .httpError 500 "AI service configuration error"
  | .failure (.provider m) => .httpError 502 ("AI provider error: " ++ m)
  | .failure (.generic m) => .httpError 500 ("AI service error: " ++ m)
  | .unexpected _ => .httpError 500 "Internal server error"

/-!
Authentication (`app/api/auth.py`).
-/

/-- Embedding of `APIKeyHeader._get_valid_api_keys` (auth.py lines 48-56):
comma-separated keys are split, stripped and filtered of empty parts; a
key string with no comma is used whole. -/
def getValidApiKeys (apiKey : String) : List String :=
  if strContains apiKey "," then
    ((strSplitOn apiKey ',').map strTrim).filter (fun k => !(k == ""))
  else
    [apiKey]

/-- Embedding of `APIKeyHeader.__call__` (auth.py lines 24-46): the header
value is `none` when absent; Python's `if not api_key` treats an absent header
and an empty value alike (401); a non-empty value not among the configured
keys is rejected with 403; otherwise the key is returned. -/
def checkApiKey (configuredKey : String) (header : Option String) : Except Nat String :=
  let apiKey := header.getD ""
  if apiKey = "" then .error 401
  else if apiKey ∈ getValidApiKeys configuredKey then .ok apiKey
  else .error 403

/-- The excluded paths of `is_excluded_path` (auth.py lines 68-77). -/
def excludedPaths : List String :=
  ["/", "/docs", "/redoc", "/openapi.json", "/api/v1/health"]

/-- Embedding of `is_excluded_path`. -/
def isExcludedPath (path : String) : Bool :=
  excludedPaths.contains path

/-!
Fine-grained model of two concurrent `create_service` calls for the same
uncached, registered provider name whose construction and validation succeed.
Each call performs, in order, the atomic actions of ai_factory.py lines 48,
63 and 69: read the cache (line 48), run the constructor (line 63), write the
cache (line 69).  The source takes no lock, so a scheduler may interleave
these actions arbitrarily; `constructed` counts constructor runs, and each
task's instance is identified by its task number.
-/

/-- Joint state of the cache and the two in-flight `create_service` calls:
each task's program counter is 0 (about to read the cache), 1 (missed, about
to construct), 2 (about to write the cache) or 3 (returned). -/
structure RaceState where
  cache : Option Nat
  pc0 : Nat
  pc1 : Nat
  constructed : Nat
deriving DecidableEq, Repr

/-- Initial state: empty cache, both calls before their cache read. -/
def raceInit : RaceState := { cache := none, pc0 := 0, pc1 := 0, constructed := 0 }

/-- Run the next atomic action of task 0 (`t = false`) or task 1 (`t = true`). -/
def raceStep (s : RaceState) (t : Bool) : RaceState :=
  let pc := if t then s.pc1 else s.pc0
  let setPc := fun (s' : RaceState) (n : Nat) =>
    if t then { s' with pc1 := n } else { s' with pc0 := n }
  match pc with
  | 0 =>
    match s.cache with
    | some _ => setPc s 3
    | none => setPc s 1
  | 1 => setPc { s with constructed := s.constructed + 1 } 2
  | 2 => setPc { s with cache := some (if t then 1 else 0) } 3
  | _ => s

/-- Run a schedule (a list of task choices) from the initial state. -/
def runSchedule (sched : List Bool) : RaceState :=
  sched.foldl raceStep raceInit

/-- The classification cascade exactly as the design document states it
(spec-side comparator): rate-limit/quota phrasing, then key/authentication
phrasing, then permission/forbidden phrasing, each tested on the lowercased
failure text, else a provider error. -/
def specErrorCategory (failureText : String) : ErrorCategory :=
  let m := strToLower failureText
  if strContains m "rate limit" || strContains m "quota" then .rateLimit
  else if strContains m "api key" || strContains m "authentication" then .configuration
  else if strContains m "permission" || strContains m "forbidden" then .configuration
  else .provider

/-- A concrete transport client used to instantiate theorems. -/
def sampleClient : GeminiClient :=
  { model := "gemini-2.0-flash", googleApiKey := "real-key" }

/-- A concrete successfully constructed service used to instantiate theorems. -/
def sampleService : GeminiService :=
  { modelName := "gemini-2.0-flash", client := some sampleClient }

lemma classifyGeminiError_category (e : String) :
    (classifyGeminiError e).category = specErrorCategory e := by
  simp only [classifyGeminiError, specErrorCategory]
  by_cases h1 :
      (strContains (strToLower e) "rate limit" || strContains (strToLower e) "quota") = true
  · simp [h1, AIServiceFailure.category]
  · by_cases h2 :
        (strContains (strToLower e) "api key" || strContains (strToLower e) "authentication") = true
    · simp [h1, h2, AIServiceFailure.category]
    · by_cases h3 :
          (strContains (strToLower e) "permission" || strContains (strToLower e) "forbidden") = true
      · simp [h1, h2, h3, AIServiceFailure.category]
      · simp [h1, h2, h3, AIServiceFailure.category]

lemma specErrorCategory_ne_generic (e : String) :
    specErrorCategory e ≠ ErrorCategory.generic := by
  simp only [specErrorCategory]
  by_cases h1 :
      (strContains (strToLower e) "rate limit" || strContains (strToLower e) "quota") = true
  · simp [h1]
  · by_cases h2 :
        (strContains (strToLower e) "api key" || strContains (strToLower e) "authentication") = true
    · simp [h1, h2]
    · by_cases h3 :
          (strContains (strToLower e) "permission" || strContains (strToLower e) "forbidden") = true
      · simp [h1, h2, h3]
      · simp [h1, h2, h3]

/-- C1: for every upstream failure caught in `GeminiService.chat` or
`GeminiService.chat_stream`, the re-raised error category is given by the
keyword cascade on the lowercased failure text (rate limit/quota, then api
key/authentication, then permission/forbidden, else provider error), in that
precedence order, and exactly one of the four outcomes occurs (the generic
category never does). -/
theorem gemini_error_classification (svc : GeminiService) (c : GeminiClient)
    (h : svc.client = some c) (e : String) (chunks : List AIChunk) :
    (∃ f, svc.chat (.error e) = .error f ∧ f.category = specErrorCategory e) ∧
    (∃ f, (svc.chatStream chunks (some e)).2 = some f ∧ f.category = specErrorCategory e) ∧
    specErrorCategory e ≠ ErrorCategory.generic := by
  refine ⟨⟨classifyGeminiError e, ?_, classifyGeminiError_category e⟩,
    ⟨classifyGeminiError e, ?_, classifyGeminiError_category e⟩,
    specErrorCategory_ne_generic e⟩
  · simp [GeminiService.chat, h, geminiChatResult]
  · simp [GeminiService.chatStream, h, geminiStreamOutput]

/-- Witness for C1: a quota-phrased failure, classified through both `chat`
and `chat_stream` of a constructed service. -/
theorem gemini_error_classification_witness :
    (∃ f, sampleService.chat (.error "Quota exceeded for model") = .error f ∧
      f.category = specErrorCategory "Quota exceeded for model") ∧
    (∃ f, (sampleService.chatStream [] (some "Quota exceeded for model")).2 = some f ∧
      f.category = specErrorCategory "Quota exceeded for model") ∧
    specErrorCategory "Quota exceeded for model" ≠ ErrorCategory.generic :=
  gemini_error_classification sampleService sampleClient rfl "Quota exceeded for model" []

/-- C2: for a registered provider whose construction and validation succeed,
two successive `create_service` calls with the same name and no intervening
`clear_cache` return the identical instance, and the constructor runs at most
once across the two calls. -/
theorem factory_cache_singleton {I : Type} (reg : String → Option (ProviderSpec I))
    (cache : String → Option I) (name : String) (spec : ProviderSpec I) (inst : I)
    (b : Bool) (hreg : reg (strToLower name) = some spec)
    (hctor : spec.construct = .ok inst) (hval : spec.validate inst = .ok b) :
    ∃ i : I,
      (createService reg cache name).result = .ok i ∧
      (createService reg (createService reg cache name).cache name).result = .ok i ∧
      (createService reg cache name).ctorRuns +
        (createService reg (createService reg cache name).cache name).ctorRuns ≤ 1 := by
  cases hc : cache (strToLower name) with
  | some j =>
    exact ⟨j, by simp [createService, hc], by simp [createService, hc], by simp [createService, hc]⟩
  | none =>
    refine ⟨inst, ?_, ?_, ?_⟩ <;>
      simp [createService, hc, hreg, hctor, hval]

/-- A concrete one-provider registry over `Nat` instances, whose constructor
yields `7` and whose validation succeeds. -/
def natRegistry : String → Option (ProviderSpec Nat) :=
  fun p =>
    if p = "gemini" then some { construct := .ok 7, validate := fun _ => .ok true }
    else none

/-- Witness for C2: two `create_service "gemini"` calls against the concrete
registry, starting from the cleared cache. -/
theorem factory_cache_singleton_witness :
    ∃ i : Nat,
      (createService natRegistry clearCache "gemini").result = .ok i ∧
      (createService natRegistry (createService natRegistry clearCache "gemini").cache
        "gemini").result = .ok i ∧
      (createService natRegistry clearCache "gemini").ctorRuns +
        (createService natRegistry (createService natRegistry clearCache "gemini").cache
          "gemini").ctorRuns ≤ 1 :=
  factory_cache_singleton natRegistry clearCache "gemini"
    { construct := .ok 7, validate := fun _ => .ok true } 7 true rfl rfl rfl

lemma concatStrings_cons (a : String) (l : List String) :
    concatStrings (a :: l) = a ++ concatStrings l := rfl

lemma concatStrings_filter_ne_empty (l : List String) :
    concatStrings (l.filter fun c => !(c == "")) = concatStrings l := by
  induction l with
  | nil => rfl
  | cons hd tl ih =>
    by_cases h : hd = ""
    · subst h
      rw [List.filter_cons]
      simp only [beq_self_eq_true, Bool.not_true, if_neg Bool.false_ne_true]
      rw [ih, concatStrings_cons]
      exact (String.empty_append (concatStrings tl)).symm
    · rw [List.filter_cons]
      have hb : (!(hd == "")) = true := by simp [h]
      rw [if_pos hb, concatStrings_cons, concatStrings_cons, ih]

/-- C3: given identical transport responses for both calls — the complete
response's content is the in-order concatenation of the streamed chunks — the
concatenation of the fragments yielded by `chat_stream` equals the string
returned by `chat`, every yielded fragment is non-empty, and the stream raises
no error. -/
theorem chat_stream_refines_chat (svc : GeminiService) (c : GeminiClient)
    (h : svc.client = some c) (chunks : List AIChunk) (resp : AIResponse)
    (hid : resp.content = concatStrings (chunks.map AIChunk.content)) :
    svc.chat (.ok resp) = .ok resp.content ∧
    concatStrings (svc.chatStream chunks none).1 = resp.content ∧
    (∀ f ∈ (svc.chatStream chunks none).1, f ≠ "") ∧
    (svc.chatStream chunks none).2 = none := by
  refine ⟨?_, ?_, ?_, ?_⟩
  · simp [GeminiService.chat, h, geminiChatResult]
  · simp only [GeminiService.chatStream, h, geminiStreamOutput]
    rw [concatStrings_filter_ne_empty, ← hid]
  · intro f hf
    simp only [GeminiService.chatStream, h, geminiStreamOutput, List.mem_filter] at hf
    simpa using hf.2
  · simp [GeminiService.chatStream, h, geminiStreamOutput]

/-- Witness for C3: the stream `["Hel", "", "lo"]` against the complete
response `"Hello"`. -/
theorem chat_stream_refines_chat_witness :
    sampleService.chat (.ok { content := "Hello" }) = .ok (AIResponse.mk "Hello").content ∧
    concatStrings (sampleService.chatStream [{ content := "Hel" }, { content := "" },
      { content := "lo" }] none).1 = (AIResponse.mk "Hello").content ∧
    (∀ f ∈ (sampleService.chatStream [{ content := "Hel" }, { content := "" },
      { content := "lo" }] none).1, f ≠ "") ∧
    (sampleService.chatStream [{ content := "Hel" }, { content := "" },
      { content := "lo" }] none).2 = none :=
  chat_stream_refines_chat sampleService sampleClient rfl
    [{ content := "Hel" }, { content := "" }, { content := "lo" }]
    { content := "Hello" } (by decide)

/-- C4: a failing `create_service` call — unregistered name, raising
constructor, or raising validation — raises `AIConfigurationError` and leaves
the cache unchanged; an unregistered name never runs a constructor; and an
instance is returned (and cached under the lowercased name) only when its
construction and validation both succeeded. -/
theorem factory_failure_atomic {I : Type} (reg : String → Option (ProviderSpec I))
    (cache : String → Option I) (name : String)
    (hmiss : cache (strToLower name) = none) :
    (reg (strToLower name) = none →
      (∃ m, (createService reg cache name).result = .error (.configuration m)) ∧
      (createService reg cache name).cache = cache ∧
      (createService reg cache name).ctorRuns = 0) ∧
    (∀ spec e, reg (strToLower name) = some spec → spec.construct = .error e →
      (∃ m, (createService reg cache name).result = .error (.configuration m)) ∧
      (createService reg cache name).cache = cache) ∧
    (∀ spec inst e, reg (strToLower name) = some spec → spec.construct = .ok inst →
      spec.validate inst = .error e →
      (∃ m, (createService reg cache name).result = .error (.configuration m)) ∧
      (createService reg cache name).cache = cache) ∧
    (∀ i, (createService reg cache name).result = .ok i →
      ∃ spec b, reg (strToLower name) = some spec ∧ spec.construct = .ok i ∧
        spec.validate i = .ok b ∧
        (createService reg cache name).cache (strToLower name) = some i) := by
  refine ⟨?_, ?_, ?_, ?_⟩
  · intro hreg
    simp [createService, hmiss, hreg]
  · intro spec e hreg hctor
    simp [createService, hmiss, hreg, hctor]
  · intro spec inst e hreg hctor hval
    simp [createService, hmiss, hreg, hctor, hval]
  · intro i hres
    cases hreg : reg (strToLower name) with
    | none => simp [createService, hmiss, hreg] at hres
    | some spec =>
      cases hctor : spec.construct with
      | error e => simp [createService, hmiss, hreg, hctor] at hres
      | ok inst =>
        cases hval : spec.validate inst with
        | error e => simp [createService, hmiss, hreg, hctor, hval] at hres
        | ok b =>
          simp only [createService, hmiss, hreg, hctor, hval] at hres
          simp only [Except.ok.injEq] at hres
          refine ⟨spec, b, rfl, ?_, ?_, ?_⟩
          · rw [hctor, hres]
          · rw [← hres]; exact hval
          · rw [← hres]; simp [createService, hmiss, hreg, hctor, hval]

/-- An empty registry over `Nat` instances. -/
def noRegistry : String → Option (ProviderSpec Nat) := fun _ => none

/-- Witness for C4: `create_service` with a name absent from the registry
raises `AIConfigurationError`. -/
theorem factory_failure_atomic_witness :
    ∃ m, (createService noRegistry clearCache "gemini").result =
      .error (.configuration m) :=
  ((factory_failure_atomic noRegistry clearCache "gemini" rfl).1 rfl).1

/-- C5: the `POST /api/v1/chat` handler maps the service-layer outcome to the
externally visible reply: success to 200 with the response content and model
name, `AIRateLimitError` to 429, `AIConfigurationError` to 500,
`AIProviderError` to 502, any other `AIServiceError` to 500, and an
unclassified exception to 500. -/
theorem chat_endpoint_status_mapping (modelName content msg e : String) :
    chatEndpoint modelName (.success content) = .okChat 200 content modelName ∧
    (chatEndpoint modelName (.failure (.rateLimit msg))).status = 429 ∧
    (chatEndpoint modelName (.failure (.configuration msg))).status = 500 ∧
    (chatEndpoint modelName (.failure (.provider msg))).status = 502 ∧
    (chatEndpoint modelName (.failure (.generic msg))).status = 500 ∧
    (chatEndpoint modelName (.unexpected e)).status = 500 :=
  ⟨rfl, rfl, rfl, rfl, rfl, rfl⟩

/-- Counterexample for C6: a request carrying the `X-API-Key` header with an
empty value is rejected with 401, not 403, although the header is present and
its value is not among the configured keys — Python's `if not api_key` treats
an empty header value like an absent header. -/
theorem api_key_empty_header_counterexample :
    checkApiKey "secret" (some "") = .error 401 ∧
    "" ∉ getValidApiKeys "secret" ∧
    checkApiKey "secret" (some "") ≠ .error 403 := by
  refine ⟨rfl, by decide, ?_⟩
  intro h
  exact absurd (congrArg (fun r => match r with | .error n => n | .ok _ => 0) h) (by decide)

/-- C6 as amended: an absent header, or a header present with an empty value,
fails with 401; a header present with a non-empty value not among the
configured keys (the key string split on commas into whitespace-trimmed
non-empty parts, or the whole string when it has no comma) fails with 403;
otherwise the key is accepted; and exactly the paths `/`, `/docs`, `/redoc`,
`/openapi.json` and `/api/v1/health` are exempt from authentication. -/
theorem api_key_auth_amended (cfg k p : String) :
    checkApiKey cfg none = .error 401 ∧
    checkApiKey cfg (some "") = .error 401 ∧
    (k ≠ "" → k ∉ getValidApiKeys cfg → checkApiKey cfg (some k) = .error 403) ∧
    (k ≠ "" → k ∈ getValidApiKeys cfg → checkApiKey cfg (some k) = .ok k) ∧
    (isExcludedPath p = true ↔
      (p = "/" ∨ p = "/docs" ∨ p = "/redoc" ∨ p = "/openapi.json" ∨
        p = "/api/v1/health")) := by
  refine ⟨rfl, rfl, ?_, ?_, ?_⟩
  · intro hk hmem
    simp [checkApiKey, hk, hmem]
  · intro hk hmem
    simp [checkApiKey, hk, hmem]
  · simp [isExcludedPath, excludedPaths, List.contains]

/-- Witness for C6 (amended): with configured keys `"alpha, beta"`, the key
`"beta"` is accepted. -/
theorem api_key_auth_amended_witness :
    checkApiKey "alpha, beta" (some "beta") = .ok "beta" :=
  (api_key_auth_amended "alpha, beta" "beta" "/").2.2.2.1 (by decide) (by decide)

/-- C7: a message whose role is none of `system`, `user`, `assistant` is not
rejected by `_convert_messages`: it is converted, at its own position, to the
same `HumanMessage` the role `user` would produce, and a warning naming the
role is recorded. -/
theorem unknown_role_lenient_fallback (msgs : List ApiMessage) (i : Nat)
    (m : ApiMessage) (hm : msgs[i]? = some m) (hrole : m.role ∉ messageRoles) :
    (convertMessages msgs)[i]? = some (.human m.content) ∧
    convertMessage m = convertMessage { role := "user", content := m.content } ∧
    ("Unknown message role: " ++ m.role) ∈ convertWarnings msgs := by
  simp only [messageRoles, List.mem_cons, List.not_mem_nil, or_false, not_or] at hrole
  obtain ⟨h1, h2, h3⟩ := hrole
  refine ⟨?_, ?_, ?_⟩
  · simp [convertMessages, List.getElem?_map, hm, convertMessage, h1, h2, h3]
  · simp [convertMessage, h1, h2, h3]
  · have hmem : m ∈ msgs := by
      rcases List.getElem?_eq_some.mp hm with ⟨hlt, hEq⟩
      exact hEq ▸ List.getElem_mem hlt
    refine List.mem_map_of_mem _ ?_
    rw [List.mem_filter]
    exact ⟨hmem, by simp [h1, h2, h3]⟩

/-- Witness for C7: a message with the unrecognized role `tool`. -/
theorem unknown_role_lenient_fallback_witness :
    (convertMessages [{ role := "tool", content := "hi" }])[0]? =
      some (.human "hi") ∧
    convertMessage { role := "tool", content := "hi" } =
      convertMessage { role := "user", content := "hi" } ∧
    ("Unknown message role: " ++ "tool") ∈
      convertWarnings [{ role := "tool", content := "hi" }] :=
  unknown_role_lenient_fallback [{ role := "tool", content := "hi" }] 0
    { role := "tool", content := "hi" } rfl (by decide)

/-- C8: `validate_configuration` never returns false — it returns true when
the configured model API key is non-empty, is not the `test-model-key`
placeholder and the client is initialized, and raises `AIConfigurationError`
in every other case. -/
theorem validate_configuration_never_false (svc : GeminiService) (key : String) :
    ((key ≠ "" ∧ key ≠ "test-model-key" ∧ svc.client ≠ none) →
      svc.validateConfiguration key = .ok true) ∧
    (¬(key ≠ "" ∧ key ≠ "test-model-key" ∧ svc.client ≠ none) →
      ∃ m, svc.validateConfiguration key = .error (.configuration m)) ∧
    (∀ b, svc.validateConfiguration key = .ok b → b = true) := by
  refine ⟨?_, ?_, ?_⟩
  · rintro ⟨h1, h2, h3⟩
    cases hcl : svc.client with
    | none => exact absurd hcl h3
    | some c => simp [GeminiService.validateConfiguration, h1, h2, hcl]
  · intro h
    by_cases k1 : key = ""
    · exact ⟨"Gemini API key not configured",
        by simp [GeminiService.validateConfiguration, k1]⟩
    · by_cases k2 : key = "test-model-key"
      · exact ⟨"Gemini API key not configured",
          by simp [GeminiService.validateConfiguration, k1, k2]⟩
      · cases hcl : svc.client with
        | none => exact ⟨"Gemini client not initialized",
            by simp [GeminiService.validateConfiguration, k1, k2, hcl]⟩
        | some c => exact absurd ⟨k1, k2, by simp [hcl]⟩ h
  · intro b hb
    by_cases k1 : key = ""
    · simp [GeminiService.validateConfiguration, k1] at hb
    · by_cases k2 : key = "test-model-key"
      · simp [GeminiService.validateConfiguration, k1, k2] at hb
      · cases hcl : svc.client with
        | none => simp [GeminiService.validateConfiguration, k1, k2, hcl] at hb
        | some c =>
          simp [GeminiService.validateConfiguration, k1, k2, hcl] at hb
          exact hb

/-- Witness for C8: the sample constructed service with a real key validates
to true. -/
theorem validate_configuration_never_false_witness :
    sampleService.validateConfiguration "real-key" = .ok true :=
  (validate_configuration_never_false sampleService "real-key").1
    ⟨by decide, by decide, by decide⟩

/-- C9: `create_service` takes no lock, so the cache read at ai_factory.py
line 48, the construction at line 63 and the cache write at line 69 of two
concurrent calls for the same uncached name may interleave.  A sequential
schedule constructs one instance, but the interleaved schedule in which both
calls read the cache before either writes constructs two — the at-most-one
construction the design intends is not enforced by the code. -/
theorem race_unserialized_duplicate_construction :
    (runSchedule [false, false, false, true]).constructed = 1 ∧
    (runSchedule [false, true, false, false, true, true]).constructed = 2 ∧
    ¬(∀ sched : List Bool, (runSchedule sched).constructed ≤ 1) := by
  refine ⟨by decide, by decide, ?_⟩
  intro h
  exact absurd (h [false, true, false, false, true, true]) (by decide)

/-- C10: a `GeminiService` whose construction completes without raising has a
non-`None` client: `chat`, `chat_stream` and `validate_configuration` never
take their "Gemini client not initialized" branches (each call is the guarded
body itself), and `get_model_info` reports `configured = true`. -/
theorem gemini_constructed_client_initialized (key : String)
    (ctor : Except String GeminiClient) (svc : GeminiService)
    (h : mkGeminiService key ctor = .ok svc) :
    svc.client ≠ none ∧
    (∀ t, svc.chat t = geminiChatResult t) ∧
    (∀ chunks failure, svc.chatStream chunks failure = geminiStreamOutput chunks failure) ∧
    svc.validateConfiguration key = .ok true ∧
    (svc.getModelInfo).configured = true := by
  unfold mkGeminiService at h
  by_cases hk : (key = "" || key = "test-model-key") = true
  · simp [hk] at h
  · simp only [hk, if_neg, Bool.false_eq_true, not_false_eq_true, if_false] at h
    cases ctor with
    | error e => simp at h
    | ok c =>
      simp only [Except.ok.injEq] at h
      simp only [Bool.or_eq_true, not_or] at hk
      obtain ⟨k1, k2⟩ := hk
      refine ⟨?_, ?_, ?_, ?_, ?_⟩
      · rw [← h]; simp
      · intro t; rw [← h]; rfl
      · intro chunks failure; rw [← h]; rfl
      · rw [← h]
        simp [GeminiService.validateConfiguration, k1, k2]
      · rw [← h]; rfl

/-- Witness for C10: the sample service is the successful construction with a
real key, and satisfies all four consequences. -/
theorem gemini_constructed_client_initialized_witness :
    sampleService.client ≠ none ∧
    (∀ t, sampleService.chat t = geminiChatResult t) ∧
    (∀ chunks failure,
      sampleService.chatStream chunks failure = geminiStreamOutput chunks failure) ∧
    sampleService.validateConfiguration "real-key" = .ok true ∧
    (sampleService.getModelInfo).configured = true :=
  gemini_constructed_client_initialized "real-key" (.ok sampleClient) sampleService rfl
